import Mathlib

/-!
Shallow embedding of src/server.js (market-sage relay server).

The server exposes four POST routes, each of which validates one required
field of the JSON request body, makes one outbound provider call, and maps
the provider reply (or failure) into an HTTP response.  We model

  * JSON / JavaScript runtime values as the inductive type `JsValue`
    (request bodies delivered by the express JSON body parser, provider
    reply payloads, and the outbound request objects the handlers build);
  * JavaScript truthiness, property access (both the plain and the
    throwing form), optional chaining, string coercion and
    `encodeURIComponent`;
  * `JSON.parse` as a fuel-based recursive-descent parser `jsonParse`;
  * every handler as a pure function from the parsed request body and the
    provider outcome to the pair (HTTP response, outbound request made —
    `none` when the handler replied before calling the provider).

Exceptions thrown inside a handler body are represented by the branch the
catch-all `catch` block of that handler turns them into, so a handler that
returns at all (totality of the Lean function) is exactly a handler that
never propagates an exception to the transport layer.
-/

namespace MarketSage

/-- JavaScript runtime values as far as the relay manipulates them.
Numbers are represented exactly as mantissa times a power of ten,
`num m e` standing for the number `m * 10 ^ e`; the request and reply
payloads of this server never rely on float-specific behavior. -/
inductive JsValue where
  | undefined : JsValue
  | null : JsValue
  | bool : Bool → JsValue
  | num : Int → Int → JsValue
  | str : String → JsValue
  | arr : List JsValue → JsValue
  | obj : List (String × JsValue) → JsValue

/-- JavaScript truthiness: `undefined`, `null`, `false`, `0` and the empty
string are falsy; every object and array is truthy. -/
def truthy : JsValue → Bool
  | JsValue.undefined => false
  | JsValue.null => false
  | JsValue.bool b => b
  | JsValue.num m _ => if m = 0 then false else true
  | JsValue.str s => if s = "" then false else true
  | JsValue.arr _ => true
  | JsValue.obj _ => true

/-- Last-binding-wins lookup in an object literal, matching the JavaScript
object semantics where a later duplicate key overwrites an earlier one
(as `JSON.parse` also behaves). Absent keys give `undefined`. -/
def lookupField (fs : List (String × JsValue)) (key : String) : JsValue :=
  (fs.foldl (fun acc kv => if kv.1 = key then some kv.2 else acc) none).getD JsValue.undefined

/-- Natural number denoted by a digit list. -/
def digitsVal (ds : List Char) : Nat :=
  ds.foldl (fun acc c => acc * 10 + (c.toNat - 48)) 0

/-- A canonical array-index key: a non-empty digit string without a
superfluous leading zero, as JavaScript array indexing treats string
keys. -/
def arrIndex? (s : String) : Option Nat :=
  match s.data with
  | [] => none
  | ds =>
      if ds.all (fun c => 48 ≤ c.toNat ∧ c.toNat ≤ 57) then
        if ds.headI = Char.ofNat 48 ∧ ds ≠ [Char.ofNat 48] then none
        else some (digitsVal ds)
      else none

/-- Non-throwing property access `v[k]`: object field lookup, array index
(or `length`) access, `undefined` on every primitive.  Accessing a property
of `undefined` or `null` throws in JavaScript; that case is handled by
`jsGetE` and by the optional-chaining form `optChain` below, while the
handlers use this total form only where the base was already checked. -/
def getField (v : JsValue) (k : String) : JsValue :=
  match v with
  | JsValue.obj fs => lookupField fs k
  | JsValue.arr xs =>
      if k = "length" then JsValue.num (Int.ofNat xs.length) 0
      else
        match arrIndex? k with
        | some n => (xs.get? n).getD JsValue.undefined
        | none => JsValue.undefined
  | _ => JsValue.undefined

/-- Throwing property access `v[k]`: a TypeError (as in V8) when the base is
`undefined` or `null`, otherwise the value of `getField`. -/
def jsGetE (v : JsValue) (k : String) : Except String JsValue :=
  match v with
  | JsValue.undefined =>
      Except.error ("Cannot read properties of undefined (reading " ++ k ++ ")")
  | JsValue.null =>
      Except.error ("Cannot read properties of null (reading " ++ k ++ ")")
  | _ => Except.ok (getField v k)

/-- Optional chaining `v?.[k]`: `undefined` when the base is `undefined` or
`null`, plain property access otherwise. -/
def optChain (v : JsValue) (k : String) : JsValue :=
  match v with
  | JsValue.undefined => JsValue.undefined
  | JsValue.null => JsValue.undefined
  | _ => getField v k

/-- The express JSON body parser in its default strict mode only ever
delivers an object or an array as `req.body`. -/
def isObjOrArr : JsValue → Bool
  | JsValue.obj _ => true
  | JsValue.arr _ => true
  | _ => false

/-- Decimal rendering of `m * 10 ^ e`, approximating the JavaScript
number-to-string conversion on the values that occur here. -/
def jsNumToString (m e : Int) : String :=
  if 0 ≤ e then toString (m * (10 : Int) ^ e.toNat)
  else
    let k := (-e).toNat
    let na := m.natAbs
    let ip := na / 10 ^ k
    let fp := na % 10 ^ k
    let fracDigits := (Nat.toDigits 10 fp)
    let padded := List.replicate (k - fracDigits.length) (Char.ofNat 48) ++ fracDigits
    let trimmed := (padded.reverse.dropWhile (fun c => c = Char.ofNat 48)).reverse
    (if m < 0 then "-" else "") ++ toString ip ++
      (if trimmed = [] then "" else "." ++ String.mk trimmed)

mutual

/-- JavaScript string coercion `String(v)` for the values the handlers
interpolate into templates or pass to `encodeURIComponent`. -/
def jsToString : JsValue → String
  | JsValue.undefined => "undefined"
  | JsValue.null => "null"
  | JsValue.bool b => if b then "true" else "false"
  | JsValue.num m e => jsNumToString m e
  | JsValue.str s => s
  | JsValue.arr xs => jsArrToString xs
  | JsValue.obj _ => "[object Object]"

/-- Array-to-string coercion: comma-joined elements, with `undefined` and
`null` elements rendered as the empty string (as in JavaScript). -/
def jsArrToString : List JsValue → String
  | [] => ""
  | x :: xs =>
      (match x with
       | JsValue.undefined => ""
       | JsValue.null => ""
       | v => jsToString v) ++
      (match xs with
       | [] => ""
       | _ => "," ++ jsArrToString xs)

end

/-- Uppercase hex digit for a value below 16. -/
def hexDigit (n : Nat) : Char :=
  if n < 10 then Char.ofNat (48 + n) else Char.ofNat (55 + n)

/-- UTF-8 byte sequence of one unicode scalar value. -/
def utf8Bytes (c : Char) : List Nat :=
  let n := c.toNat
  if n < 128 then [n]
  else if n < 2048 then [192 + n / 64, 128 + n % 64]
  else if n < 65536 then [224 + n / 4096, 128 + (n / 64) % 64, 128 + n % 64]
  else [240 + n / 262144, 128 + (n / 4096) % 64, 128 + (n / 64) % 64, 128 + n % 64]

/-- Characters `encodeURIComponent` leaves unescaped: ASCII letters,
digits, and the marks of the ECMAScript specification. -/
def uriUnreserved (c : Char) : Bool :=
  c.isAlpha || c.isDigit ||
    c ∈ [Char.ofNat 45, Char.ofNat 95, Char.ofNat 46, Char.ofNat 33,
         Char.ofNat 126, Char.ofNat 42, Char.ofNat 39, Char.ofNat 40, Char.ofNat 41]

/-- Percent-encoding of one character as the `%XX` form of each of its
UTF-8 bytes, uppercase hex. -/
def pctEncodeChar (c : Char) : String :=
  (utf8Bytes c).foldl
    (fun acc b => acc ++ String.mk [Char.ofNat 37, hexDigit (b / 16), hexDigit (b % 16)]) ""

/-- The ECMAScript `encodeURIComponent` function. -/
def encodeURIComponent (s : String) : String :=
  s.data.foldl
    (fun acc c => acc ++ (if uriUnreserved c then String.mk [c] else pctEncodeChar c)) ""

/-- JSON whitespace. -/
def isJsonWs (c : Char) : Bool :=
  c = Char.ofNat 32 || c = Char.ofNat 9 || c = Char.ofNat 10 || c = Char.ofNat 13

/-- Drop leading JSON whitespace. -/
def skipWs : List Char → List Char
  | [] => []
  | c :: cs => if isJsonWs c then skipWs cs else c :: cs

/-- Value of a hexadecimal digit, `none` for any other character. -/
def hexVal (c : Char) : Option Nat :=
  let n := c.toNat
  if 48 ≤ n ∧ n ≤ 57 then some (n - 48)
  else if 65 ≤ n ∧ n ≤ 70 then some (n - 55)
  else if 97 ≤ n ∧ n ≤ 102 then some (n - 87)
  else none

/-- Body of a JSON string literal, the opening quote already consumed:
handles the escape sequences of the JSON grammar and rejects unescaped
control characters; returns the decoded string and the rest of the input. -/
def parseStringBody : Nat → List Char → List Char → Option (String × List Char)
  | 0, _, _ => none
  | _, _, [] => none
  | Nat.succ fuel, acc, c :: cs =>
      if c = Char.ofNat 34 then some (String.mk acc.reverse, cs)
      else if c = Char.ofNat 92 then
        match cs with
        | [] => none
        | e :: cs2 =>
            if e = Char.ofNat 34 then parseStringBody fuel (Char.ofNat 34 :: acc) cs2
            else if e = Char.ofNat 92 then parseStringBody fuel (Char.ofNat 92 :: acc) cs2
            else if e = Char.ofNat 47 then parseStringBody fuel (Char.ofNat 47 :: acc) cs2
            else if e = Char.ofNat 98 then parseStringBody fuel (Char.ofNat 8 :: acc) cs2
            else if e = Char.ofNat 102 then parseStringBody fuel (Char.ofNat 12 :: acc) cs2
            else if e = Char.ofNat 110 then parseStringBody fuel (Char.ofNat 10 :: acc) cs2
            else if e = Char.ofNat 114 then parseStringBody fuel (Char.ofNat 13 :: acc) cs2
            else if e = Char.ofNat 116 then parseStringBody fuel (Char.ofNat 9 :: acc) cs2
            else if e = Char.ofNat 117 then
              match cs2 with
              | h1 :: h2 :: h3 :: h4 :: cs3 =>
                  match hexVal h1, hexVal h2, hexVal h3, hexVal h4 with
                  | some a, some b, some c3, some d =>
                      parseStringBody fuel
                        (Char.ofNat (a * 4096 + b * 256 + c3 * 16 + d) :: acc) cs3
                  | _, _, _, _ => none
              | _ => none
            else none
      else if c.toNat < 32 then none
      else parseStringBody fuel (c :: acc) cs

/-- Split a leading run of decimal digits from the input. -/
def spanDigits : List Char → List Char × List Char
  | [] => ([], [])
  | c :: cs =>
      if 48 ≤ c.toNat ∧ c.toNat ≤ 57 then
        let (ds, rest) := spanDigits cs
        (c :: ds, rest)
      else ([], c :: cs)

/-- JSON number literal, following the grammar `JSON.parse` accepts
(optional minus, integer part without superfluous leading zero, optional
fraction and exponent); returns the mantissa/exponent pair and the rest. -/
def parseNumber (cs : List Char) : Option (JsValue × List Char) :=
  let (neg, cs1) :=
    match cs with
    | c :: rest => if c = Char.ofNat 45 then (true, rest) else (false, cs)
    | [] => (false, cs)
  match spanDigits cs1 with
  | ([], _) => none
  | (ds, rest) =>
      if 1 < ds.length ∧ ds.headI = Char.ofNat 48 then none
      else
        let (fds, rest2) :=
          match rest with
          | c :: r2 =>
              if c = Char.ofNat 46 then
                match spanDigits r2 with
                | ([], _) => ([Char.ofNat 47], rest)
                | (fs, r3) => (fs, r3)
              else ([], rest)
          | [] => ([], rest)
        if fds = [Char.ofNat 47] then none
        else
          let expPart : Option (Int × List Char) :=
            match rest2 with
            | c :: r3 =>
                if c = Char.ofNat 101 ∨ c = Char.ofNat 69 then
                  let (esign, r4) :=
                    match r3 with
                    | d :: r5 =>
                        if d = Char.ofNat 45 then ((-1 : Int), r5)
                        else if d = Char.ofNat 43 then ((1 : Int), r5)
                        else ((1 : Int), r3)
                    | [] => ((1 : Int), r3)
                  match spanDigits r4 with
                  | ([], _) => none
                  | (es, r6) => some (esign * Int.ofNat (digitsVal es), r6)
                else some (0, rest2)
            | [] => some (0, rest2)
          match expPart with
          | none => none
          | some (e, restF) =>
              let mantNat := digitsVal (ds ++ fds)
              let mant : Int := if neg then -(Int.ofNat mantNat) else Int.ofNat mantNat
              some (JsValue.num mant (e - Int.ofNat fds.length), restF)

mutual

/-- One JSON value (leading whitespace allowed), fuel-bounded; mirrors the
value grammar `JSON.parse` accepts. -/
def parseVal : Nat → List Char → Option (JsValue × List Char)
  | 0, _ => none
  | Nat.succ fuel, cs =>
      match skipWs cs with
      | [] => none
      | c :: rest =>
          if c = Char.ofNat 34 then
            match parseStringBody (rest.length + 1) [] rest with
            | some (s, r2) => some (JsValue.str s, r2)
            | none => none
          else if c = Char.ofNat 91 then
            match skipWs rest with
            | d :: r2 =>
                if d = Char.ofNat 93 then some (JsValue.arr [], r2)
                else parseElems fuel (skipWs rest) |>.map (fun p => (JsValue.arr p.1, p.2))
            | [] => none
          else if c = Char.ofNat 123 then
            match skipWs rest with
            | d :: r2 =>
                if d = Char.ofNat 125 then some (JsValue.obj [], r2)
                else parseMembers fuel (skipWs rest) |>.map (fun p => (JsValue.obj p.1, p.2))
            | [] => none
          else if c = Char.ofNat 116 then
            match rest with
            | r :: u :: e :: r2 =>
                if r = Char.ofNat 114 ∧ u = Char.ofNat 117 ∧ e = Char.ofNat 101 then
                  some (JsValue.bool true, r2)
                else none
            | _ => none
          else if c = Char.ofNat 102 then
            match rest with
            | a :: l :: s :: e :: r2 =>
                if a = Char.ofNat 97 ∧ l = Char.ofNat 108 ∧ s = Char.ofNat 115 ∧
                    e = Char.ofNat 101 then
                  some (JsValue.bool false, r2)
                else none
            | _ => none
          else if c = Char.ofNat 110 then
            match rest with
            | u :: l1 :: l2 :: r2 =>
                if u = Char.ofNat 117 ∧ l1 = Char.ofNat 108 ∧ l2 = Char.ofNat 108 then
                  some (JsValue.null, r2)
                else none
            | _ => none
          else parseNumber (c :: rest)

/-- Comma-separated array elements, consuming the closing bracket. -/
def parseElems : Nat → List Char → Option (List JsValue × List Char)
  | 0, _ => none
  | Nat.succ fuel, cs =>
      match parseVal fuel cs with
      | none => none
      | some (v, rest) =>
          match skipWs rest with
          | c :: r2 =>
              if c = Char.ofNat 44 then
                match parseElems fuel r2 with
                | some (vs, r3) => some (v :: vs, r3)
                | none => none
              else if c = Char.ofNat 93 then some ([v], r2)
              else none
          | [] => none

/-- Comma-separated object members, consuming the closing brace. -/
def parseMembers : Nat → List Char → Option (List (String × JsValue) × List Char)
  | 0, _ => none
  | Nat.succ fuel, cs =>
      match skipWs cs with
      | c :: rest =>
          if c = Char.ofNat 34 then
            match parseStringBody (rest.length + 1) [] rest with
            | none => none
            | some (k, r2) =>
                match skipWs r2 with
                | d :: r3 =>
                    if d = Char.ofNat 58 then
                      match parseVal fuel r3 with
                      | none => none
                      | some (v, r4) =>
                          match skipWs r4 with
                          | e :: r5 =>
                              if e = Char.ofNat 44 then
                                match parseMembers fuel r5 with
                                | some (ms, r6) => some ((k, v) :: ms, r6)
                                | none => none
                              else if e = Char.ofNat 125 then some ([(k, v)], r5)
                              else none
                          | [] => none
                    else none
                | [] => none
          else none
      | [] => none

end

/-- The `JSON.parse` function: parse one JSON text, demanding that nothing
but whitespace follows; `none` models the thrown SyntaxError. -/
def jsonParse (s : String) : Option JsValue :=
  match parseVal (2 * s.length + 8) s.data with
  | some (v, rest) => if skipWs rest = [] then some v else none
  | none => none

/-- An HTTP response as the handlers produce it through `res.status` and
`res.json`: a status code and a JSON body. -/
structure HttpResponse where
  status : Nat
  body : JsValue

/-- Outcome of a call through the `@google/genai` SDK
(`ai.models.generateContent`): either the awaited promise rejects with an
error message, or it resolves to a response object of which the handlers
read the `text` getter (a string, or `undefined` when absent) and the
`candidates` property (an arbitrary value, `undefined` when absent). -/
inductive SdkOutcome where
  | throws : String → SdkOutcome
  | ok : Option String → JsValue → SdkOutcome

/-- Outcome of a direct `fetch` call: either the promise rejects with a
network error message, or a response arrives with an `ok` flag (status in
the 200 range) and a body text; `response.json()` is `jsonParse` of that
text, `response.text()` is the text itself. -/
inductive FetchOutcome where
  | netError : String → FetchOutcome
  | response : Bool → String → FetchOutcome

/-- The SDK `response.text` value as it appears inside `res.json` payloads:
the string, or `undefined` when the SDK returned none. -/
def sdkTextToJs : Option String → JsValue
  | some s => JsValue.str s
  | none => JsValue.undefined

/-- Body of every catch-block 500 reply:
`res.status(500).json({error: ..., details: error.message})`. -/
def mkErr (e d : String) : JsValue :=
  JsValue.obj [("error", JsValue.str e), ("details", JsValue.str d)]

/-- Message of the TypeError V8 raises for a destructuring of `undefined`
or `null`, as caught by the handler catch blocks. -/
def destructureErrMsg : String :=
  "Cannot destructure property of undefined or null request body"

/-- Message of the SyntaxError `JSON.parse` raises on malformed input, as
caught by the handler catch blocks. -/
def jsonSyntaxErrMsg : String :=
  "Unexpected token in JSON"

/-- Message of the TypeError raised when `webSearchQueries` is a value
without a `map` method. -/
def mapTypeErrMsg : String :=
  "webSearchQueries.map is not a function"

/-- Generic error text of the chat catch block (server.js line 105). -/
def chatErrText : String :=
  "An internal server error occurred while analyzing the request."

/-- Generic error text of the sentiment catch block (server.js line 160). -/
def sentimentErrText : String :=
  "An internal server error occurred during structured sentiment analysis."

/-- Generic error text of the image catch block (server.js line 215). -/
def imageErrText : String :=
  "An internal server error occurred during image generation."

/-- Generic error text of the TTS catch block (server.js line 276). -/
def ttsErrText : String :=
  "An internal server error occurred during Text-to-Speech generation."

/-- The inline-data content part the chat handler pushes when `file` is
truthy (server.js lines 69 to 74). -/
def inlineDataPart (d m : JsValue) : JsValue :=
  JsValue.obj [("inlineData", JsValue.obj [("data", d), ("mimeType", m)])]

/-- The parts list the chat handler builds (server.js lines 63 to 78): an
inline-data part from the `file` fields when `file` is truthy, then always
one text part carrying `prompt`. -/
def chatParts (prompt file : JsValue) : List JsValue :=
  (if truthy file then
     [inlineDataPart (getField file "base64Data") (getField file "mimeType")]
   else []) ++ [JsValue.obj [("text", prompt)]]

/-- The argument object of the chat `generateContent` call
(server.js lines 82 to 89). -/
def chatRequestArg (parts : List JsValue) : JsValue :=
  JsValue.obj
    [("model", JsValue.str "gemini-2.5-flash"),
     ("contents", JsValue.arr [JsValue.obj [("role", JsValue.str "user"),
        ("parts", JsValue.arr parts)]]),
     ("config", JsValue.obj [("tools",
        JsValue.arr [JsValue.obj [("googleSearch", JsValue.obj [])]])])]

/-- The optional chain
`response.candidates?.[0]?.groundingMetadata?.webSearchQueries`
(server.js line 91), applied to the `candidates` value. -/
def webQueriesOf (cands : JsValue) : JsValue :=
  optChain (optChain (optChain cands "0") "groundingMetadata") "webSearchQueries"

/-- One synthetic citation (server.js lines 91 to 94): the search-engine
URL with the query URL-encoded, and the query itself as title. -/
def mkCitation (q : JsValue) : JsValue :=
  JsValue.obj
    [("uri", JsValue.str ("https://www.google.com/search?q=" ++
        encodeURIComponent (jsToString q))),
     ("title", q)]

/-- Evaluation of `webSearchQueries?.map(...) || []` (server.js lines 91
to 94): `undefined` or `null` short-circuits to the empty list, an array
maps every query to a citation, and any other value makes the `.map` call
throw a TypeError (`none`). -/
def citationsOf (cands : JsValue) : Option (List JsValue) :=
  match webQueriesOf cands with
  | JsValue.undefined => some []
  | JsValue.null => some []
  | JsValue.arr qs => some (qs.map mkCitation)
  | _ => none

/-- POST /api/chat handler (server.js lines 55 to 109). Takes the parsed
request body and the SDK outcome; returns the HTTP response and the
`generateContent` argument when the outbound call was made. -/
def chatHandler (body : JsValue) (prov : SdkOutcome) :
    HttpResponse × Option JsValue :=
  match body with
  | JsValue.undefined => (⟨500, mkErr chatErrText destructureErrMsg⟩, none)
  | JsValue.null => (⟨500, mkErr chatErrText destructureErrMsg⟩, none)
  | _ =>
      let prompt := getField body "prompt"
      let file := getField body "file"
      if truthy prompt = false then
        (⟨400, JsValue.obj [("error", JsValue.str "Prompt is required.")]⟩, none)
      else
        let outReq := chatRequestArg (chatParts prompt file)
        match prov with
        | SdkOutcome.throws m => (⟨500, mkErr chatErrText m⟩, some outReq)
        | SdkOutcome.ok text cands =>
            match citationsOf cands with
            | none => (⟨500, mkErr chatErrText mapTypeErrMsg⟩, some outReq)
            | some srcs =>
                (⟨200, JsValue.obj [("text", sdkTextToJs text),
                    ("sources", JsValue.arr srcs)]⟩, some outReq)

/-- The prompt template of the sentiment handler (server.js line 124). -/
def sentimentPrompt (asset : JsValue) : String :=
  "Analyze the current market sentiment, key drivers, and outlook for the asset: **" ++
    jsToString asset ++ "**. Search the web for real-time data and news."

/-- The SENTIMENT_SCHEMA object literal (server.js lines 126 to 138). -/
def SENTIMENT_SCHEMA : JsValue :=
  JsValue.obj
    [("type", JsValue.str "OBJECT"),
     ("properties", JsValue.obj
       [("asset", JsValue.obj [("type", JsValue.str "STRING"),
          ("description", JsValue.str "The asset analyzed (e.g., BTC/USD).")]),
        ("sentiment_score", JsValue.obj [("type", JsValue.str "NUMBER"),
          ("description", JsValue.str
            "A score from -10 (Extremely Bearish) to +10 (Extremely Bullish).")]),
        ("key_drivers", JsValue.obj
          [("type", JsValue.str "ARRAY"),
           ("items", JsValue.obj [("type", JsValue.str "STRING"),
             ("description", JsValue.str
               "Top 3 factors currently affecting the price of the asset.")])]),
        ("summary", JsValue.obj [("type", JsValue.str "STRING"),
          ("description", JsValue.str
            "A concise paragraph summarizing the current market sentiment and outlook based on the key drivers.")])]),
     ("required", JsValue.arr
       [JsValue.str "asset", JsValue.str "sentiment_score",
        JsValue.str "key_drivers", JsValue.str "summary"])]

/-- The argument object of the sentiment `generateContent` call
(server.js lines 141 to 149). -/
def sentimentRequestArg (asset : JsValue) : JsValue :=
  JsValue.obj
    [("model", JsValue.str "gemini-2.5-flash"),
     ("contents", JsValue.arr [JsValue.obj [("role", JsValue.str "user"),
        ("parts", JsValue.arr [JsValue.obj
          [("text", JsValue.str (sentimentPrompt asset))]])]]),
     ("config", JsValue.obj
       [("tools", JsValue.arr [JsValue.obj [("googleSearch", JsValue.obj [])]]),
        ("responseMimeType", JsValue.str "application/json"),
        ("responseSchema", SENTIMENT_SCHEMA)])]

/-- POST /api/sentiment handler (server.js lines 116 to 164). On provider
success it runs `JSON.parse(response.text)` and replies 200 with the parsed
value; a parse failure is caught by the catch block and turned into the
500 error/details reply. -/
def sentimentHandler (body : JsValue) (prov : SdkOutcome) :
    HttpResponse × Option JsValue :=
  match body with
  | JsValue.undefined => (⟨500, mkErr sentimentErrText destructureErrMsg⟩, none)
  | JsValue.null => (⟨500, mkErr sentimentErrText destructureErrMsg⟩, none)
  | _ =>
      let asset := getField body "asset"
      if truthy asset = false then
        (⟨400, JsValue.obj [("error",
           JsValue.str "Asset name is required for sentiment analysis.")]⟩, none)
      else
        let outReq := sentimentRequestArg asset
        match prov with
        | SdkOutcome.throws m => (⟨500, mkErr sentimentErrText m⟩, some outReq)
        | SdkOutcome.ok text _ =>
            match jsonParse (text.getD "undefined") with
            | none => (⟨500, mkErr sentimentErrText jsonSyntaxErrMsg⟩, some outReq)
            | some v => (⟨200, v⟩, some outReq)

/-- The body object of the image `fetch` call (server.js lines 191 to 197). -/
def imageRequestArg (prompt : JsValue) : JsValue :=
  JsValue.obj
    [("prompt", prompt),
     ("config", JsValue.obj [("numberOfImages", JsValue.num 1 0),
        ("aspectRatio", JsValue.str "1:1")])]

/-- The unguarded extraction `data.generatedImages[0].image.imageBytes`
(server.js line 208), with the JavaScript throwing-access semantics at each
step. -/
def imageExtract (d : JsValue) : Except String JsValue := do
  let gi ← jsGetE d "generatedImages"
  let first ← jsGetE gi "0"
  let img ← jsGetE first "image"
  jsGetE img "imageBytes"

/-- POST /api/generate-image handler (server.js lines 172 to 219). -/
def generateImageHandler (body : JsValue) (prov : FetchOutcome) :
    HttpResponse × Option JsValue :=
  match body with
  | JsValue.undefined => (⟨500, mkErr imageErrText destructureErrMsg⟩, none)
  | JsValue.null => (⟨500, mkErr imageErrText destructureErrMsg⟩, none)
  | _ =>
      let prompt := getField body "prompt"
      if truthy prompt = false then
        (⟨400, JsValue.obj [("error", JsValue.str "Image prompt is required.")]⟩, none)
      else
        let outReq := imageRequestArg prompt
        match prov with
        | FetchOutcome.netError m => (⟨500, mkErr imageErrText m⟩, some outReq)
        | FetchOutcome.response ok t =>
            if ok = false then
              (⟨500, mkErr imageErrText ("Imagen API Failed: " ++ t)⟩, some outReq)
            else
              match jsonParse t with
              | none => (⟨500, mkErr imageErrText jsonSyntaxErrMsg⟩, some outReq)
              | some d =>
                  match imageExtract d with
                  | Except.error m => (⟨500, mkErr imageErrText m⟩, some outReq)
                  | Except.ok b64 =>
                      (⟨200, JsValue.obj [("base64Image", b64)]⟩, some outReq)

/-- The payload object of the TTS `fetch` call (server.js lines 236 to 246). -/
def ttsRequestArg (text : JsValue) : JsValue :=
  JsValue.obj
    [("contents", JsValue.arr [JsValue.obj
       [("parts", JsValue.arr [JsValue.obj [("text", text)]])]]),
     ("generationConfig", JsValue.obj
       [("responseModalities", JsValue.arr [JsValue.str "AUDIO"]),
        ("speechConfig", JsValue.obj [("voiceConfig", JsValue.obj
          [("prebuiltVoiceConfig", JsValue.obj
            [("voiceName", JsValue.str "Charon")])])])])]

/-- The optional chain `result?.candidates?.[0]?.content?.parts?.[0]`
(server.js line 261). -/
def ttsPartOf (result : JsValue) : JsValue :=
  optChain (optChain (optChain (optChain (optChain result "candidates") "0")
    "content") "parts") "0"

/-- The guard `!part || !part.inlineData || !part.inlineData.data`
(server.js line 263), negated: true exactly when the part, its inline data
and the audio data are all truthy. -/
def hasAudioData (part : JsValue) : Bool :=
  truthy part && truthy (getField part "inlineData") &&
    truthy (getField (getField part "inlineData") "data")

/-- POST /api/tts handler (server.js lines 226 to 280). -/
def ttsHandler (body : JsValue) (prov : FetchOutcome) :
    HttpResponse × Option JsValue :=
  match body with
  | JsValue.undefined => (⟨500, mkErr ttsErrText destructureErrMsg⟩, none)
  | JsValue.null => (⟨500, mkErr ttsErrText destructureErrMsg⟩, none)
  | _ =>
      let text := getField body "text"
      if truthy text = false then
        (⟨400, JsValue.obj [("error", JsValue.str "Text is required for TTS.")]⟩, none)
      else
        let outReq := ttsRequestArg text
        match prov with
        | FetchOutcome.netError m => (⟨500, mkErr ttsErrText m⟩, some outReq)
        | FetchOutcome.response ok t =>
            if ok = false then
              (⟨500, mkErr ttsErrText ("TTS API Failed: " ++ t)⟩, some outReq)
            else
              match jsonParse t with
              | none => (⟨500, mkErr ttsErrText jsonSyntaxErrMsg⟩, some outReq)
              | some result =>
                  let part := ttsPartOf result
                  if hasAudioData part = false then
                    (⟨500, mkErr ttsErrText "TTS response missing inline audio data."⟩,
                      some outReq)
                  else
                    (⟨200, JsValue.obj
                      [("audioData", getField (getField part "inlineData") "data"),
                       ("mimeType", getField (getField part "inlineData") "mimeType")]⟩,
                      some outReq)

/-- A body of the UpstreamError shape: an object whose `error` and
`details` fields are both strings (spec section 7). -/
def isUpstreamShape : JsValue → Bool
  | JsValue.obj [("error", JsValue.str _), ("details", JsValue.str _)] => true
  | _ => false

/-- Comparison `m1 * 10 ^ e1 ≤ m2 * 10 ^ e2` on exact decimal numbers. -/
def numLe (m1 e1 m2 e2 : Int) : Bool :=
  let e := min e1 e2
  decide (m1 * (10 : Int) ^ (e1 - e).toNat ≤ m2 * (10 : Int) ^ (e2 - e).toNat)

/-- Every element is a string. -/
def isTextList : List JsValue → Bool
  | [] => true
  | JsValue.str _ :: rest => isTextList rest
  | _ => false

/-- Modelled from the spec: the fixed SentimentResponse shape of spec
section 3 — a record with exactly the fields `asset` (text),
`sentiment_score` (a number in the interval from -10 to 10), `key_drivers`
(at most 3 text items) and `summary` (text). The relay itself contains no
such check; this predicate states the claimed response shape so it can be
compared with what the handler actually returns. -/
def isSentimentShape : JsValue → Bool
  | JsValue.obj [("asset", JsValue.str _), ("sentiment_score", JsValue.num m e),
      ("key_drivers", JsValue.arr ds), ("summary", JsValue.str _)] =>
      numLe (-10) 0 m e && numLe m e 10 0 && decide (ds.length ≤ 3) && isTextList ds
  | _ => false

/-- A required field that is omitted (`undefined`) or supplied empty is
falsy. -/
theorem truthy_false_of_missing {v : JsValue}
    (h : v = JsValue.undefined ∨ v = JsValue.str "") : truthy v = false := by
  rcases h with h | h <;> subst h <;> rfl

/-- A non-empty string is truthy. -/
theorem truthy_str {s : String} (h : s ≠ "") : truthy (JsValue.str s) = true := by
  simp [truthy, h]

/-- With a truthy prompt the chat handler always makes the outbound call,
with the parts built by `chatParts`, and never replies 400. -/
theorem chat_call_record (fs : List (String × JsValue)) (p : String) (sp : SdkOutcome)
    (hp : getField (JsValue.obj fs) "prompt" = JsValue.str p) (hne : p ≠ "") :
    (chatHandler (JsValue.obj fs) sp).2 =
      some (chatRequestArg (chatParts (JsValue.str p) (getField (JsValue.obj fs) "file"))) ∧
    (chatHandler (JsValue.obj fs) sp).1.status ≠ 400 := by
  cases sp with
  | throws m => simp [chatHandler, hp, truthy_str hne]
  | ok t c => cases hc : citationsOf c <;> simp [chatHandler, hp, truthy_str hne, hc]

/-- A parsed success payload whose `generatedImages` field is absent or an
empty array makes the unguarded extraction chain throw. -/
theorem imageExtract_error_of_missing (d : JsValue)
    (hmiss : getField d "generatedImages" = JsValue.undefined ∨
             getField d "generatedImages" = JsValue.arr []) :
    ∃ m, imageExtract d = Except.error m := by
  cases d with
  | obj fs =>
      rcases hmiss with h | h
      · refine ⟨"Cannot read properties of undefined (reading 0)", ?_⟩
        unfold imageExtract
        rw [show jsGetE (JsValue.obj fs) "generatedImages" = Except.ok JsValue.undefined from
          by simp [jsGetE, h]]
        rfl
      · refine ⟨"Cannot read properties of undefined (reading image)", ?_⟩
        unfold imageExtract
        rw [show jsGetE (JsValue.obj fs) "generatedImages" = Except.ok (JsValue.arr []) from
          by simp [jsGetE, h]]
        rfl
  | undefined => exact ⟨_, rfl⟩
  | null => exact ⟨_, rfl⟩
  | bool b => exact ⟨_, rfl⟩
  | num m e => exact ⟨_, rfl⟩
  | str s => exact ⟨_, rfl⟩
  | arr xs => exact ⟨_, rfl⟩

/-- C1: for every POST request to any of the four routes whose body omits
the required field (`prompt`, `asset`, `prompt`, `text` respectively) or
supplies it as the empty string, the handler replies HTTP 400 with an
`error` message and makes no outbound provider call (second component
`none`).  The body is an object or array, as the express JSON body parser
delivers in its default strict mode. -/
theorem missing_required_field_400_no_call
    (body : JsValue) (sp : SdkOutcome) (fp : FetchOutcome)
    (hbody : isObjOrArr body = true) :
    ((getField body "prompt" = JsValue.undefined ∨ getField body "prompt" = JsValue.str "") →
      chatHandler body sp =
        (⟨400, JsValue.obj [("error", JsValue.str "Prompt is required.")]⟩, none)) ∧
    ((getField body "asset" = JsValue.undefined ∨ getField body "asset" = JsValue.str "") →
      sentimentHandler body sp =
        (⟨400, JsValue.obj [("error",
           JsValue.str "Asset name is required for sentiment analysis.")]⟩, none)) ∧
    ((getField body "prompt" = JsValue.undefined ∨ getField body "prompt" = JsValue.str "") →
      generateImageHandler body fp =
        (⟨400, JsValue.obj [("error", JsValue.str "Image prompt is required.")]⟩, none)) ∧
    ((getField body "text" = JsValue.undefined ∨ getField body "text" = JsValue.str "") →
      ttsHandler body fp =
        (⟨400, JsValue.obj [("error", JsValue.str "Text is required for TTS.")]⟩, none)) := by
  refine ⟨fun h => ?_, fun h => ?_, fun h => ?_, fun h => ?_⟩ <;>
    · have ht := truthy_false_of_missing h
      cases body <;>
        simp_all [chatHandler, sentimentHandler, generateImageHandler, ttsHandler, isObjOrArr]

/-- C1 witness: a concrete body without any of the required fields gets
the 400 reply with no call on all four routes. -/
theorem missing_required_field_400_no_call_witness :
    chatHandler (JsValue.obj [("foo", JsValue.num 1 0)]) (SdkOutcome.throws "boom") =
      (⟨400, JsValue.obj [("error", JsValue.str "Prompt is required.")]⟩, none) ∧
    sentimentHandler (JsValue.obj [("foo", JsValue.num 1 0)]) (SdkOutcome.throws "boom") =
      (⟨400, JsValue.obj [("error",
         JsValue.str "Asset name is required for sentiment analysis.")]⟩, none) ∧
    generateImageHandler (JsValue.obj [("foo", JsValue.num 1 0)]) (FetchOutcome.netError "down") =
      (⟨400, JsValue.obj [("error", JsValue.str "Image prompt is required.")]⟩, none) ∧
    ttsHandler (JsValue.obj [("foo", JsValue.num 1 0)]) (FetchOutcome.netError "down") =
      (⟨400, JsValue.obj [("error", JsValue.str "Text is required for TTS.")]⟩, none) := by
  have h := missing_required_field_400_no_call (JsValue.obj [("foo", JsValue.num 1 0)])
    (SdkOutcome.throws "boom") (FetchOutcome.netError "down") rfl
  exact ⟨h.1 (Or.inl rfl), h.2.1 (Or.inl rfl), h.2.2.1 (Or.inl rfl), h.2.2.2 (Or.inl rfl)⟩

/-- C2: for every sentiment request with a non-empty asset, when the
provider call succeeds but its text output is not valid JSON, the handler
replies HTTP 500 with the UpstreamError body (error plus details) — the
parse failure is caught, not propagated (the handler function is total and
returns this response). -/
theorem sentiment_bad_json_500
    (fs : List (String × JsValue)) (a : String) (t : Option String) (cands : JsValue)
    (ha : getField (JsValue.obj fs) "asset" = JsValue.str a) (hne : a ≠ "")
    (hbad : jsonParse (t.getD "undefined") = none) :
    sentimentHandler (JsValue.obj fs) (SdkOutcome.ok t cands) =
      (⟨500, mkErr sentimentErrText jsonSyntaxErrMsg⟩,
        some (sentimentRequestArg (JsValue.str a))) := by
  simp [sentimentHandler, ha, truthy_str hne, hbad]

/-- C2 witness. -/
theorem sentiment_bad_json_500_witness :
    sentimentHandler (JsValue.obj [("asset", JsValue.str "BTC")])
        (SdkOutcome.ok (some "oops") JsValue.undefined) =
      (⟨500, mkErr sentimentErrText jsonSyntaxErrMsg⟩,
        some (sentimentRequestArg (JsValue.str "BTC"))) :=
  sentiment_bad_json_500 [("asset", JsValue.str "BTC")] "BTC" (some "oops")
    JsValue.undefined rfl (by decide) rfl

/-- C3: for every chat request with a non-empty prompt, the outbound
request carries exactly one text part when no file is supplied, and
exactly the inline-data part (data and mimeType from the file) followed by
the text part when a file object is supplied. -/
theorem chat_outbound_parts_spec
    (fs : List (String × JsValue)) (p : String) (sp : SdkOutcome)
    (hp : getField (JsValue.obj fs) "prompt" = JsValue.str p) (hne : p ≠ "") :
    (getField (JsValue.obj fs) "file" = JsValue.undefined →
      (chatHandler (JsValue.obj fs) sp).2 =
        some (chatRequestArg [JsValue.obj [("text", JsValue.str p)]])) ∧
    (∀ gs, getField (JsValue.obj fs) "file" = JsValue.obj gs →
      (chatHandler (JsValue.obj fs) sp).2 =
        some (chatRequestArg
          [inlineDataPart (getField (JsValue.obj gs) "base64Data")
             (getField (JsValue.obj gs) "mimeType"),
           JsValue.obj [("text", JsValue.str p)]])) := by
  constructor
  · intro hf
    rw [(chat_call_record fs p sp hp hne).1, hf]
    simp [chatParts, truthy]
  · intro gs hf
    rw [(chat_call_record fs p sp hp hne).1, hf]
    simp [chatParts, truthy]

/-- C3 witness: one request without file, one with a file. -/
theorem chat_outbound_parts_spec_witness :
    (chatHandler (JsValue.obj [("prompt", JsValue.str "hi")]) (SdkOutcome.throws "x")).2 =
      some (chatRequestArg [JsValue.obj [("text", JsValue.str "hi")]]) ∧
    (chatHandler (JsValue.obj [("prompt", JsValue.str "hi"),
        ("file", JsValue.obj [("base64Data", JsValue.str "QUJD"),
          ("mimeType", JsValue.str "image/png")])]) (SdkOutcome.throws "x")).2 =
      some (chatRequestArg
        [inlineDataPart (JsValue.str "QUJD") (JsValue.str "image/png"),
         JsValue.obj [("text", JsValue.str "hi")]]) := by
  constructor
  · exact (chat_outbound_parts_spec [("prompt", JsValue.str "hi")] "hi"
      (SdkOutcome.throws "x") rfl (by decide)).1 rfl
  · exact (chat_outbound_parts_spec [("prompt", JsValue.str "hi"),
      ("file", JsValue.obj [("base64Data", JsValue.str "QUJD"),
        ("mimeType", JsValue.str "image/png")])] "hi"
      (SdkOutcome.throws "x") rfl (by decide)).2
      [("base64Data", JsValue.str "QUJD"), ("mimeType", JsValue.str "image/png")] rfl

/-- C4: for every successful chat provider response, a grounding query
list yields `sources` mapped query-by-query to the synthetic citation
(search URL with the URL-encoded query, title the query itself),
preserving order and length; an absent query chain yields the empty
list. -/
theorem chat_sources_map
    (fs : List (String × JsValue)) (p : String) (t : Option String) (cands : JsValue)
    (hp : getField (JsValue.obj fs) "prompt" = JsValue.str p) (hne : p ≠ "") :
    (∀ qs, webQueriesOf cands = JsValue.arr qs →
      (chatHandler (JsValue.obj fs) (SdkOutcome.ok t cands)).1 =
        ⟨200, JsValue.obj [("text", sdkTextToJs t),
           ("sources", JsValue.arr (qs.map mkCitation))]⟩ ∧
      (qs.map mkCitation).length = qs.length) ∧
    ((webQueriesOf cands = JsValue.undefined ∨ webQueriesOf cands = JsValue.null) →
      (chatHandler (JsValue.obj fs) (SdkOutcome.ok t cands)).1 =
        ⟨200, JsValue.obj [("text", sdkTextToJs t), ("sources", JsValue.arr [])]⟩) := by
  constructor
  · intro qs hq
    constructor
    · simp [chatHandler, hp, truthy_str hne, citationsOf, hq]
    · simp
  · intro h
    rcases h with h | h <;> simp [chatHandler, hp, truthy_str hne, citationsOf, h]

/-- C4 witness: two grounding queries give two citations in order; an
absent chain gives the empty list. -/
theorem chat_sources_map_witness :
    (chatHandler (JsValue.obj [("prompt", JsValue.str "news")])
      (SdkOutcome.ok (some "T")
        (JsValue.arr [JsValue.obj [("groundingMetadata", JsValue.obj
          [("webSearchQueries", JsValue.arr
            [JsValue.str "BTC price", JsValue.str "ETH news"])])]]))).1 =
      ⟨200, JsValue.obj [("text", JsValue.str "T"),
        ("sources", JsValue.arr
          [mkCitation (JsValue.str "BTC price"), mkCitation (JsValue.str "ETH news")])]⟩ ∧
    (chatHandler (JsValue.obj [("prompt", JsValue.str "news")])
      (SdkOutcome.ok (some "T") JsValue.undefined)).1 =
      ⟨200, JsValue.obj [("text", JsValue.str "T"), ("sources", JsValue.arr [])]⟩ := by
  constructor
  · exact ((chat_sources_map [("prompt", JsValue.str "news")] "news" (some "T")
      (JsValue.arr [JsValue.obj [("groundingMetadata", JsValue.obj
        [("webSearchQueries", JsValue.arr
          [JsValue.str "BTC price", JsValue.str "ETH news"])])]])
      rfl (by decide)).1 [JsValue.str "BTC price", JsValue.str "ETH news"] rfl).1
  · exact (chat_sources_map [("prompt", JsValue.str "news")] "news" (some "T")
      JsValue.undefined rfl (by decide)).2 (Or.inl rfl)

/-- C5 counterexample: with asset BTC and a provider success whose text is
the valid JSON number 7, the handler replies HTTP 200 whose body is that
number — not the fixed SentimentResponse record — because the relay
returns the parsed provider JSON without validating its shape. -/
theorem sentiment_success_shape_cex :
    (sentimentHandler (JsValue.obj [("asset", JsValue.str "BTC")])
        (SdkOutcome.ok (some "7") JsValue.undefined)).1.status = 200 ∧
    isSentimentShape (sentimentHandler (JsValue.obj [("asset", JsValue.str "BTC")])
        (SdkOutcome.ok (some "7") JsValue.undefined)).1.body = false :=
  ⟨rfl, rfl⟩

/-- C5 (amended): every successful sentiment response is the provider text
parsed as JSON and returned verbatim; the fixed four-field shape is
requested from the provider through the response schema — whose required
list names exactly asset, sentiment_score, key_drivers and summary — but
the relay itself does not enforce the shape, the score range or the
three-driver cap. -/
theorem sentiment_success_schema_delegated
    (fs : List (String × JsValue)) (a : String) (t : Option String) (cands v : JsValue)
    (ha : getField (JsValue.obj fs) "asset" = JsValue.str a) (hne : a ≠ "")
    (hparse : jsonParse (t.getD "undefined") = some v) :
    sentimentHandler (JsValue.obj fs) (SdkOutcome.ok t cands) =
      (⟨200, v⟩, some (sentimentRequestArg (JsValue.str a))) ∧
    getField SENTIMENT_SCHEMA "required" =
      JsValue.arr [JsValue.str "asset", JsValue.str "sentiment_score",
        JsValue.str "key_drivers", JsValue.str "summary"] := by
  refine ⟨?_, rfl⟩
  simp [sentimentHandler, ha, truthy_str hne, hparse]

/-- C5 witness: a provider reply with an out-of-range score is still
returned verbatim with HTTP 200. -/
theorem sentiment_success_schema_delegated_witness :
    sentimentHandler (JsValue.obj [("asset", JsValue.str "BTC")])
        (SdkOutcome.ok (some "\x7b\"sentiment_score\":11\x7d") JsValue.undefined) =
      (⟨200, JsValue.obj [("sentiment_score", JsValue.num 11 0)]⟩,
        some (sentimentRequestArg (JsValue.str "BTC"))) ∧
    getField SENTIMENT_SCHEMA "required" =
      JsValue.arr [JsValue.str "asset", JsValue.str "sentiment_score",
        JsValue.str "key_drivers", JsValue.str "summary"] :=
  sentiment_success_schema_delegated [("asset", JsValue.str "BTC")] "BTC"
    (some "\x7b\"sentiment_score\":11\x7d") JsValue.undefined
    (JsValue.obj [("sentiment_score", JsValue.num 11 0)]) rfl (by decide) rfl

/-- C6: for every sentiment request where the provider text parses as
valid JSON, the HTTP 200 body is exactly the parsed value, unaltered. -/
theorem sentiment_valid_json_verbatim
    (fs : List (String × JsValue)) (a : String) (t : Option String) (cands v : JsValue)
    (ha : getField (JsValue.obj fs) "asset" = JsValue.str a) (hne : a ≠ "")
    (hparse : jsonParse (t.getD "undefined") = some v) :
    (sentimentHandler (JsValue.obj fs) (SdkOutcome.ok t cands)).1 = ⟨200, v⟩ := by
  simp [sentimentHandler, ha, truthy_str hne, hparse]

/-- C6 witness: the spec example payload is returned to the caller
unchanged. -/
theorem sentiment_valid_json_verbatim_witness :
    (sentimentHandler (JsValue.obj [("asset", JsValue.str "BTC/USD")])
        (SdkOutcome.ok
          (some "\x7b\"asset\":\"BTC/USD\",\"sentiment_score\":4,\"key_drivers\":[\"A\",\"B\"],\"summary\":\"ok\"\x7d")
          JsValue.undefined)).1 =
      ⟨200, JsValue.obj [("asset", JsValue.str "BTC/USD"),
        ("sentiment_score", JsValue.num 4 0),
        ("key_drivers", JsValue.arr [JsValue.str "A", JsValue.str "B"]),
        ("summary", JsValue.str "ok")]⟩ :=
  sentiment_valid_json_verbatim [("asset", JsValue.str "BTC/USD")] "BTC/USD"
    (some "\x7b\"asset\":\"BTC/USD\",\"sentiment_score\":4,\"key_drivers\":[\"A\",\"B\"],\"summary\":\"ok\"\x7d")
    JsValue.undefined
    (JsValue.obj [("asset", JsValue.str "BTC/USD"),
      ("sentiment_score", JsValue.num 4 0),
      ("key_drivers", JsValue.arr [JsValue.str "A", JsValue.str "B"]),
      ("summary", JsValue.str "ok")]) rfl (by decide) rfl

/-- C7: for every image request with a non-empty prompt, a non-success
provider HTTP status makes the handler reply 500 whose details field
contains the raw provider error body text (as the suffix of the thrown
message). -/
theorem image_provider_error_details
    (fs : List (String × JsValue)) (p : String) (t : String)
    (hp : getField (JsValue.obj fs) "prompt" = JsValue.str p) (hne : p ≠ "") :
    generateImageHandler (JsValue.obj fs) (FetchOutcome.response false t) =
      (⟨500, mkErr imageErrText ("Imagen API Failed: " ++ t)⟩,
        some (imageRequestArg (JsValue.str p))) ∧
    ∃ pre, "Imagen API Failed: " ++ t = pre ++ t := by
  refine ⟨?_, "Imagen API Failed: ", rfl⟩
  simp [generateImageHandler, hp, truthy_str hne]

/-- C7 witness: a 403-style provider error body appears in details. -/
theorem image_provider_error_details_witness :
    generateImageHandler (JsValue.obj [("prompt", JsValue.str "a cat")])
        (FetchOutcome.response false "Forbidden 403") =
      (⟨500, mkErr imageErrText ("Imagen API Failed: " ++ "Forbidden 403")⟩,
        some (imageRequestArg (JsValue.str "a cat"))) :=
  (image_provider_error_details [("prompt", JsValue.str "a cat")] "a cat"
    "Forbidden 403" rfl (by decide)).1

/-- C8: for every TTS request with non-empty text and a provider success
response, a first part of the first candidate that is absent in the
JavaScript sense (the optional chain, the inlineData field or its data
field falsy) makes the handler reply 500 with the missing-inline-audio
message; otherwise the handler replies 200 with audioData and mimeType
taken from that inline payload. -/
theorem tts_audio_extraction
    (fs : List (String × JsValue)) (s t : String) (result : JsValue)
    (ht : getField (JsValue.obj fs) "text" = JsValue.str s) (hne : s ≠ "")
    (hparse : jsonParse t = some result) :
    (hasAudioData (ttsPartOf result) = false →
      (ttsHandler (JsValue.obj fs) (FetchOutcome.response true t)).1 =
        ⟨500, mkErr ttsErrText "TTS response missing inline audio data."⟩) ∧
    (hasAudioData (ttsPartOf result) = true →
      (ttsHandler (JsValue.obj fs) (FetchOutcome.response true t)).1 =
        ⟨200, JsValue.obj
          [("audioData", getField (getField (ttsPartOf result) "inlineData") "data"),
           ("mimeType", getField (getField (ttsPartOf result) "inlineData") "mimeType")]⟩) := by
  constructor <;> intro h <;> simp [ttsHandler, ht, truthy_str hne, hparse, h]

/-- C8 witness: a response with inline audio yields 200 with the payload;
a response without candidates yields the 500 missing-audio reply. -/
theorem tts_audio_extraction_witness :
    (ttsHandler (JsValue.obj [("text", JsValue.str "hello")])
        (FetchOutcome.response true
          "\x7b\"candidates\":[\x7b\"content\":\x7b\"parts\":[\x7b\"inlineData\":\x7b\"data\":\"AUD\",\"mimeType\":\"audio/wav\"\x7d\x7d]\x7d\x7d]\x7d")).1 =
      ⟨200, JsValue.obj [("audioData", JsValue.str "AUD"),
        ("mimeType", JsValue.str "audio/wav")]⟩ ∧
    (ttsHandler (JsValue.obj [("text", JsValue.str "hello")])
        (FetchOutcome.response true "\x7b\"candidates\":[]\x7d")).1 =
      ⟨500, mkErr ttsErrText "TTS response missing inline audio data."⟩ := by
  constructor
  · exact (tts_audio_extraction [("text", JsValue.str "hello")] "hello"
      "\x7b\"candidates\":[\x7b\"content\":\x7b\"parts\":[\x7b\"inlineData\":\x7b\"data\":\"AUD\",\"mimeType\":\"audio/wav\"\x7d\x7d]\x7d\x7d]\x7d"
      ((jsonParse
        "\x7b\"candidates\":[\x7b\"content\":\x7b\"parts\":[\x7b\"inlineData\":\x7b\"data\":\"AUD\",\"mimeType\":\"audio/wav\"\x7d\x7d]\x7d\x7d]\x7d").getD
        JsValue.undefined)
      rfl (by decide) rfl).2 rfl
  · exact (tts_audio_extraction [("text", JsValue.str "hello")] "hello"
      "\x7b\"candidates\":[]\x7d"
      (JsValue.obj [("candidates", JsValue.arr [])]) rfl (by decide) rfl).1 rfl

/-- C9: for every image request with a non-empty prompt, a provider
success whose parsed payload lacks the generatedImages array or has it
empty yields the 500 UpstreamError-shaped reply — the unguarded property
access throws a TypeError that the handler catch block converts, so
nothing escapes the handler. -/
theorem image_missing_images_upstream
    (fs : List (String × JsValue)) (p t : String) (d : JsValue)
    (hp : getField (JsValue.obj fs) "prompt" = JsValue.str p) (hne : p ≠ "")
    (hparse : jsonParse t = some d)
    (hmiss : getField d "generatedImages" = JsValue.undefined ∨
             getField d "generatedImages" = JsValue.arr []) :
    (generateImageHandler (JsValue.obj fs) (FetchOutcome.response true t)).1.status = 500 ∧
    isUpstreamShape
      (generateImageHandler (JsValue.obj fs) (FetchOutcome.response true t)).1.body = true := by
  obtain ⟨m, hm⟩ := imageExtract_error_of_missing d hmiss
  constructor <;>
    simp [generateImageHandler, hp, truthy_str hne, hparse, hm, isUpstreamShape, mkErr]

/-- C9 witness: an empty generatedImages array gives the 500
error/details reply. -/
theorem image_missing_images_upstream_witness :
    (generateImageHandler (JsValue.obj [("prompt", JsValue.str "a cat")])
        (FetchOutcome.response true "\x7b\"generatedImages\":[]\x7d")).1.status = 500 ∧
    isUpstreamShape (generateImageHandler (JsValue.obj [("prompt", JsValue.str "a cat")])
        (FetchOutcome.response true "\x7b\"generatedImages\":[]\x7d")).1.body = true :=
  image_missing_images_upstream [("prompt", JsValue.str "a cat")] "a cat"
    "\x7b\"generatedImages\":[]\x7d" (JsValue.obj [("generatedImages", JsValue.arr [])])
    rfl (by decide) rfl (Or.inr rfl)

/-- C10: for every chat request with a non-empty prompt and a file object,
the handler validates none of the file subfields: the outbound call is
made with the inline-data part carrying whatever `base64Data` and
`mimeType` lookups yield — `undefined` when absent — and the response is
never 400. -/
theorem chat_file_not_validated
    (fs gs : List (String × JsValue)) (p : String) (sp : SdkOutcome)
    (hp : getField (JsValue.obj fs) "prompt" = JsValue.str p) (hne : p ≠ "")
    (hf : getField (JsValue.obj fs) "file" = JsValue.obj gs) :
    (chatHandler (JsValue.obj fs) sp).2 =
      some (chatRequestArg
        [inlineDataPart (getField (JsValue.obj gs) "base64Data")
           (getField (JsValue.obj gs) "mimeType"),
         JsValue.obj [("text", JsValue.str p)]]) ∧
    (chatHandler (JsValue.obj fs) sp).1.status ≠ 400 := by
  have h := chat_call_record fs p sp hp hne
  refine ⟨?_, h.2⟩
  rw [h.1, hf]
  simp [chatParts, truthy]

/-- C10 witness: a file object with no subfields at all still reaches the
provider, with both inline-data fields forwarded as `undefined`. -/
theorem chat_file_not_validated_witness :
    (chatHandler (JsValue.obj [("prompt", JsValue.str "hi"), ("file", JsValue.obj [])])
        (SdkOutcome.ok none JsValue.undefined)).2 =
      some (chatRequestArg
        [inlineDataPart JsValue.undefined JsValue.undefined,
         JsValue.obj [("text", JsValue.str "hi")]]) ∧
    (chatHandler (JsValue.obj [("prompt", JsValue.str "hi"), ("file", JsValue.obj [])])
        (SdkOutcome.ok none JsValue.undefined)).1.status ≠ 400 :=
  chat_file_not_validated [("prompt", JsValue.str "hi"), ("file", JsValue.obj [])] []
    "hi" (SdkOutcome.ok none JsValue.undefined) rfl (by decide) rfl

end MarketSage
